import Mathlib

/-
Verification of the station-cache, API-client and presentation-organizer
logic of the nyc-train-tracker Raycast extension.

Shallow embedding notes:
  - JavaScript timestamps (Date.now(), Date values) are modelled as
    natural / integer epoch milliseconds.
  - JSON.stringify followed by JSON.parse of a station list is modelled as
    the identity on the list.
  - LocalStorage is modelled as an explicit record holding the two keys the
    code uses (cachedStationList, cachedStationListTimestamp).
  - The network is modelled as an oracle function passed explicitly; the
    count of oracle consultations is reported so that claims about the
    number of network calls are statable.
  - JavaScript string.toLowerCase() is modelled as a character-wise ASCII
    lowercase map; string.localeCompare ordering is modelled as
    lexicographic order on the character lists (the labels compared by the
    code are plain ASCII, where locale collation and code-unit order agree).
  - Array.prototype.sort is a stable sort (ECMA-262); it is modelled by
    List.insertionSort, which is stable and sorts with respect to the
    comparator relation.
  - Floating point station coordinates (latitude/longitude) are omitted
    from the Station record: no claim mentions them and they are carried
    around untouched by every function involved.
-/

namespace TrainTracker

/-! ### Data model, from src/types.ts -/

inductive FilterableSystem where
  | LIRR
  | SUBWAY
  | MNR
  deriving DecidableEq, Repr

inductive Direction where
  | N
  | S
  | E
  | W
  | Unknown
  deriving DecidableEq, Repr

/-- Station record from src/types.ts (coordinates omitted, see header note). -/
structure Station where
  id : String
  name : String
  system : Option String := none
  lines : Option (List String) := none
  deriving DecidableEq, Repr

/-- Raw departure as received from the API wrapper (src/types.ts):
departureTime is still an ISO string. -/
structure Departure where
  tripId : Option String := none
  routeId : Option String := none
  routeShortName : Option String := none
  routeLongName : Option String := none
  peakStatus : Option String := none
  routeColor : Option String := none
  destination : String := ""
  direction : Option Direction := none
  departureTime : Option String := none
  delayMinutes : Option Int := none
  track : Option String := none
  status : String := ""
  destinationBorough : Option String := none
  system : FilterableSystem := .SUBWAY
  deriving DecidableEq, Repr

/-- Departure after fetchDepartures post-processing (src/types.ts
ProcessedDeparture): the date string has been converted, and the mapping in
fetchDepartures adds a systemRouteId field. departureTime is epoch ms. -/
structure ProcessedDeparture where
  tripId : Option String := none
  routeId : Option String := none
  routeShortName : Option String := none
  routeLongName : Option String := none
  peakStatus : Option String := none
  routeColor : Option String := none
  destination : String := ""
  direction : Option Direction := none
  departureTime : Option Int := none
  delayMinutes : Option Int := none
  track : Option String := none
  status : String := ""
  destinationBorough : Option String := none
  system : FilterableSystem := .SUBWAY
  systemRouteId : String := ""
  deriving DecidableEq, Repr

def systemString : FilterableSystem → String
  | .LIRR => "LIRR"
  | .SUBWAY => "SUBWAY"
  | .MNR => "MNR"

/-! ### Status accessory categorization, from StationDepartures.tsx
(getStatusAccessory). The four accessory shapes produced by the function are
abstracted as a display category carrying the data that varies. -/

inductive StatusCategory where
  | Delayed
  | Cancelled
  | OnTime
  | Raw (text : String)
  deriving DecidableEq, Repr

/-- Character-wise model of JavaScript string.toLowerCase() (ASCII data). -/
def lowerData (s : String) : List Char :=
  s.data.map Char.toLower

/-- Contiguous-substring test, modelling JavaScript String.includes. -/
def containsSub (l pat : List Char) : Bool :=
  match l with
  | [] => pat.isEmpty
  | _ :: rest => pat.isPrefixOf l || containsSub rest pat

/-- The branch structure of getStatusAccessory (StationDepartures.tsx lines
82 to 89): lowercase the status, then first substring match wins in the
order delay, cancel, on time; otherwise the raw status text is shown. -/
def getStatusCategory (status : String) : StatusCategory :=
  let lowerStatus := lowerData status
  if containsSub lowerStatus "delay".data then .Delayed
  else if containsSub lowerStatus "cancel".data then .Cancelled
  else if containsSub lowerStatus "on time".data then .OnTime
  else .Raw status

/-! ### API client, from src/utils/api.ts (fetchDepartures) -/

/-- The endpoint string built by fetchDepartures: the limitMinutes query
parameter is appended (with a question mark) only when the argument is
provided and positive, mirroring the JavaScript truthiness test
(limitMinutes and limitMinutes greater than 0); the source parameter is
appended with an ampersand whenever provided. -/
def departuresEndpoint (stationId : String) (limitMinutes : Option Int)
    (source : Option String) : String :=
  let endpoint := "/departures/" ++ stationId
  let endpoint :=
    match limitMinutes with
    | some l => if 0 < l then endpoint ++ "?limitMinutes=" ++ toString l else endpoint
    | none => endpoint
  match source with
  | some s => endpoint ++ "&source=" ++ s
  | none => endpoint

/-- The per-departure mapping applied by fetchDepartures to the raw server
data. JavaScript truthiness is modelled faithfully: an empty departureTime
string, a zero delayMinutes and an empty routeId are all falsy, so they map
to null (respectively the empty systemRouteId). Date parsing of a nonempty
ISO string is an oracle parameter. -/
def processDeparture (parseDate : String → Int) (dep : Departure) : ProcessedDeparture :=
  { tripId := dep.tripId
    routeId := dep.routeId
    routeShortName := dep.routeShortName
    routeLongName := dep.routeLongName
    peakStatus := dep.peakStatus
    routeColor := dep.routeColor
    destination := dep.destination
    direction := dep.direction
    departureTime :=
      match dep.departureTime with
      | some s => if s = "" then none else some (parseDate s)
      | none => none
    delayMinutes :=
      match dep.delayMinutes with
      | some d => if d = 0 then none else some d
      | none => none
    track := dep.track
    status := dep.status
    destinationBorough := dep.destinationBorough
    system := dep.system
    systemRouteId :=
      match dep.routeId with
      | some rid => if rid = "" then "" else systemString dep.system ++ "-" ++ rid
      | none => "" }

structure FetchDeparturesOutcome where
  departures : List ProcessedDeparture
  networkCalls : Nat
  deriving DecidableEq, Repr

/-- fetchDepartures (src/utils/api.ts lines 190 to 217): an empty stationId
returns the empty list before any request is made; otherwise the wrapper is
consulted once and its rows are mapped through processDeparture. The server
response is an oracle parameter. -/
def fetchDepartures (parseDate : String → Int) (stationId : String)
    (limitMinutes : Option Int) (source : Option String)
    (serverResult : List Departure) : FetchDeparturesOutcome :=
  if stationId = "" then ⟨[], 0⟩
  else
    let _ := departuresEndpoint stationId limitMinutes source
    ⟨serverResult.map (processDeparture parseDate), 1⟩

/-! ### API error classification, from src/utils/api.ts
(isErrorResponse, fetchFromWrapper). The JSON body is modelled by an
explicit inductive; the HTTP layer is summarized by the facts the code
inspects: whether the content type is JSON, whether response.ok holds, and
the numeric status. -/

structure APIError where
  message : String
  statusCode : Option Nat := none
  deriving DecidableEq, Repr

inductive Json where
  | null
  | bool (b : Bool)
  | num (n : Int)
  | str (s : String)
  | arr (elems : List Json)
  | obj (fields : List (String × Json))

/-- Property access on a JSON object (first matching field). -/
def lookupField : List (String × Json) → String → Option Json
  | [], _ => none
  | (k, v) :: rest, key => if k = key then some v else lookupField rest key

/-- isErrorResponse (api.ts lines 98 to 111): the body is an object whose
error field is a non-null object carrying a string message field. A JSON
array passes the JavaScript typeof object test but has neither an error
property nor a message property, so it is rejected here exactly as there. -/
def isErrorResponse : Json → Bool
  | .obj fields =>
    match lookupField fields "error" with
    | some (.obj errorFields) =>
      match lookupField errorFields "message" with
      | some (.str _) => true
      | _ => false
    | _ => false
  | _ => false

/-- The data.error.message access performed after the isErrorResponse
guard; returns the empty string off the guarded shape (never reached). -/
def getErrorMessage : Json → String
  | .obj fields =>
    match lookupField fields "error" with
    | some (.obj errorFields) =>
      match lookupField errorFields "message" with
      | some (.str s) => s
      | _ => ""
    | _ => ""
  | _ => ""

def httpErrorMessage (status : Nat) : String :=
  "HTTP error! status: " ++ toString status

/-- The response classification of fetchFromWrapper (api.ts lines 113 to
159): non-JSON content type fails; a non-ok status fails, preferring the
envelope message when the body has the error shape and that message is
truthy (nonempty); an ok status with an error-shaped body still fails with
the envelope message; otherwise the body is returned as success. -/
def fetchFromWrapper (contentTypeJson : Bool) (ok : Bool) (status : Nat)
    (body : Json) : Except APIError Json :=
  if contentTypeJson = false then
    .error ⟨"Invalid response format received from server.", some status⟩
  else if ok = false then
    if isErrorResponse body then
      .error ⟨if getErrorMessage body = "" then httpErrorMessage status
              else getErrorMessage body, some status⟩
    else
      .error ⟨httpErrorMessage status, some status⟩
  else if isErrorResponse body then
    .error ⟨getErrorMessage body, some status⟩
  else
    .ok body

/-! ### Station list cache, from src/findDepartures.tsx (the caching
revision). LocalStorage is modelled as the two keys the code uses; the
network (fetchStations) is an oracle mapping the request that the code
builds (search text, API system parameter, forceRefresh flag) to a result. -/

inductive SystemFilterValue where
  | All
  | SUBWAY
  | LIRR
  | MNR
  deriving DecidableEq, Repr

/-- filterValueToApiParam (findDepartures.tsx): All maps to no parameter. -/
def filterValueToApiParam : SystemFilterValue → Option FilterableSystem
  | .All => none
  | .SUBWAY => some .SUBWAY
  | .LIRR => some .LIRR
  | .MNR => some .MNR

def STATION_LIST_CACHE_TTL : Nat := 7 * 24 * 60 * 60 * 1000

/-- The two LocalStorage keys used by the cache: cachedStationList (a JSON
blob, modelled as the decoded list) and cachedStationListTimestamp (stored
as a decimal string, modelled as the number). Note there is one single
entry; the keys do not mention the system filter. -/
structure CacheState where
  cachedStationList : Option (List Station) := none
  cachedStationListTimestamp : Option Nat := none
  deriving DecidableEq, Repr

/-- The network oracle: search text, API system parameter, forceRefresh. -/
def FetchOracle : Type :=
  String → Option FilterableSystem → Bool → Except String (List Station)

structure LoadOutcome where
  allStations : List Station
  state : CacheState
  networkCalls : Nat
  errorShown : Option String := none
  deriving DecidableEq, Repr

/-- loadStations (findDepartures.tsx lines 46 to 87): read the timestamp
key (parseInt of a missing value is modelled by the same fallback 0 the
code applies); when it is truthy and younger than the TTL and the blob key
is present, answer from the cache with no network call; otherwise fetch,
and on success store the list and a fresh timestamp, while on failure show
the error and set the station list state to empty without touching the
stored keys. -/
def loadStations (fetch : FetchOracle) (currentSearchText : String)
    (systemFilterValue : SystemFilterValue) (st : CacheState) (now : Nat) :
    LoadOutcome :=
  let apiSystemFilter := filterValueToApiParam systemFilterValue
  let timestamp := match st.cachedStationListTimestamp with
    | some t => t
    | none => 0
  let cacheHit : Option (List Station) :=
    if timestamp ≠ 0 ∧ now - timestamp < STATION_LIST_CACHE_TTL then
      st.cachedStationList
    else
      none
  match cacheHit with
  | some stations => ⟨stations, st, 0, none⟩
  | none =>
    match fetch currentSearchText apiSystemFilter false with
    | .ok stations =>
      ⟨stations, ⟨some stations, some now⟩, 1, none⟩
    | .error msg => ⟨[], st, 1, some msg⟩

structure RefreshOutcome where
  allStations : Option (List Station)
  state : CacheState
  networkCalls : Nat
  errorShown : Option String := none
  deriving DecidableEq, Repr

/-- handleRefresh (findDepartures.tsx lines 114 to 162): both LocalStorage
keys are removed first, then a forced fetch is issued; on success the keys
are rewritten and the station state updated, while on failure only a toast
is shown, so the cleared keys stay cleared. -/
def handleRefresh (fetch : FetchOracle) (searchText : String)
    (selectedSystem : SystemFilterValue) (st : CacheState) (now : Nat) :
    RefreshOutcome :=
  let _ := st
  let cleared : CacheState := ⟨none, none⟩
  let apiSystemFilter := filterValueToApiParam selectedSystem
  match fetch searchText apiSystemFilter true with
  | .ok stations =>
    ⟨some stations, ⟨some stations, some now⟩, 1, none⟩
  | .error msg => ⟨none, cleared, 1, some msg⟩

/-! ### Departure grouping and section ordering, from
src/components/StationDepartures.tsx lines 186 to 216. -/

/-- The group key: destinationBorough with JavaScript falsy fallback, so a
missing borough and an empty-string borough both land in Outbound. -/
def boroughKey (dep : ProcessedDeparture) : String :=
  match dep.destinationBorough with
  | some b => if b = "" then "Outbound" else b
  | none => "Outbound"

/-- One step of the reduce that builds the borough accumulator object:
append to the existing group, or add a new group at the end (JavaScript
object keys enumerate in first-insertion order for these non-numeric
keys). -/
def addToGroups (groups : List (String × List ProcessedDeparture)) (key : String)
    (dep : ProcessedDeparture) : List (String × List ProcessedDeparture) :=
  match groups with
  | [] => [(key, [dep])]
  | (k, ds) :: rest =>
    if k = key then (k, ds ++ [dep]) :: rest
    else (k, ds) :: addToGroups rest key dep

/-- The Object.entries of the reduce accumulator: groups in first-encounter
order, each holding its departures in encounter order. -/
def groupByBorough (deps : List ProcessedDeparture) :
    List (String × List ProcessedDeparture) :=
  deps.foldl (fun acc dep => addToGroups acc (boroughKey dep) dep) []

/-- The section comparator (lines 199 to 208) as the relation comparator
result at most zero. For LIRR and MNR the comparator returns -1 when the
first label is Outbound, 1 when (only) the second is, else 0; for SUBWAY
it is localeCompare on the labels, modelled as lexicographic order on the
character data. -/
def sectionLE (system : FilterableSystem)
    (a b : String × List ProcessedDeparture) : Prop :=
  match system with
  | .LIRR | .MNR => a.1 = "Outbound" ∨ b.1 ≠ "Outbound"
  | .SUBWAY => a.1.data ≤ b.1.data

instance sectionLEDecidable (system : FilterableSystem) :
    DecidableRel (sectionLE system) := fun a b =>
  match system with
  | .LIRR => inferInstanceAs (Decidable (a.1 = "Outbound" ∨ b.1 ≠ "Outbound"))
  | .MNR => inferInstanceAs (Decidable (a.1 = "Outbound" ∨ b.1 ≠ "Outbound"))
  | .SUBWAY => inferInstanceAs (Decidable (a.1.data ≤ b.1.data))

instance : IsTotal (String × List ProcessedDeparture) (sectionLE .SUBWAY) :=
  ⟨fun a b => le_total a.1.data b.1.data⟩

instance : IsTrans (String × List ProcessedDeparture) (sectionLE .SUBWAY) :=
  ⟨fun _ _ _ hab hbc => le_trans hab hbc⟩

/-- The rendered section list: group, then stable-sort the sections with
the system comparator (Array.prototype.sort is stable). -/
def departureSections (system : FilterableSystem)
    (deps : List ProcessedDeparture) : List (String × List ProcessedDeparture) :=
  List.insertionSort (sectionLE system) (groupByBorough deps)

/-! Helper lemmas about stable insertion sort with a two-class relation
(everything in class p up front, everything else after, both in stable
order). -/

theorem orderedInsert_front {α : Type} (r : α → α → Prop) [DecidableRel r]
    (x : α) (hx : ∀ b, r x b) : ∀ L : List α, List.orderedInsert r x L = x :: L
  | [] => rfl
  | b :: L => by simp [List.orderedInsert, if_pos (hx b)]

theorem orderedInsert_after {α : Type} (p : α → Bool) (r : α → α → Prop)
    [DecidableRel r] (hr : ∀ a b, r a b ↔ (p a = true ∨ p b = false))
    (x : α) (hx : p x = false) :
    ∀ A B : List α, (∀ a ∈ A, p a = true) → (∀ b ∈ B, p b = false) →
      List.orderedInsert r x (A ++ B) = A ++ x :: B := by
  intro A
  induction A with
  | nil =>
    intro B _ hB
    cases B with
    | nil => rfl
    | cons b B =>
      have hrb : r x b := (hr x b).mpr (Or.inr (hB b (List.mem_cons_self b B)))
      simp [List.orderedInsert, if_pos hrb]
  | cons a A ih =>
    intro B hA hB
    have hxa : ¬ r x a := by
      rw [hr x a]
      simp [hx, hA a (List.mem_cons_self a A)]
    simp only [List.cons_append, List.orderedInsert, if_neg hxa]
    exact congrArg (a :: ·) (ih B (fun y hy => hA y (List.mem_cons_of_mem a hy)) hB)

theorem insertionSort_two_class {α : Type} (p : α → Bool) (r : α → α → Prop)
    [DecidableRel r] (hr : ∀ a b, r a b ↔ (p a = true ∨ p b = false)) :
    ∀ l : List α,
      List.insertionSort r l = l.filter p ++ l.filter (fun x => !(p x)) := by
  intro l
  induction l with
  | nil => rfl
  | cons x l ih =>
    simp only [List.insertionSort, ih]
    cases hp : p x with
    | true =>
      rw [orderedInsert_front r x (fun b => (hr x b).mpr (Or.inl hp))]
      simp [List.filter_cons, hp]
    | false =>
      rw [orderedInsert_after p r hr x hp _ _
        (fun a ha => (List.mem_filter.mp ha).2)
        (fun b hb => by simpa using (List.mem_filter.mp hb).2)]
      simp [List.filter_cons, hp]

/-! ### Time-window filtering of departures.

The client passes the selected dropdown limit to the backend: 0 (Show All)
becomes an absent parameter (StationDepartures.tsx line 108), and
fetchDepartures adds limitMinutes to the query string only when positive
(api.ts lines 200 to 202). The filtering itself happens in the backend,
which is not part of this repository, so it is modelled from the spec. -/

/-- The limit actually requested: selectedLimit greater than 0 passes
through, 0 means no limit parameter (StationDepartures.tsx line 108). -/
def limitParam (selectedLimit : Nat) : Option Nat :=
  if selectedLimit > 0 then some selectedLimit else none

/-- Modelled from the spec: the backend limitMinutes handling behind
GET /departures is not among this repository's sources. Per the spec a
departure is returned iff no limit was requested, or its departure time is
unknown (null), or it departs no later than now plus the limit (limit in
minutes, times modelled in epoch milliseconds). -/
def serverWindowFilter (now : Int) (limit : Option Nat)
    (deps : List ProcessedDeparture) : List ProcessedDeparture :=
  match limit with
  | none => deps
  | some l =>
    deps.filter fun dep =>
      match dep.departureTime with
      | none => true
      | some t => decide (t ≤ now + l * 60000)

/-- The list the departures view displays: the client forwards the request
and renders the server answer without further time filtering. -/
def displayedDepartures (selectedLimit : Nat) (now : Int)
    (allDeps : List ProcessedDeparture) : List ProcessedDeparture :=
  serverWindowFilter now (limitParam selectedLimit) allDeps

/-! ### Favorite partition of the station list, from src/findDepartures.tsx
lines 93 to 109 (same code in both revisions of the file). -/

/-- Sort key: lowercased display name, modelling the case-insensitive
locale-aware localeCompare ordering on these ASCII names. -/
def stationNameKey (s : Station) : List Char :=
  lowerData s.name

def stationNameLE (a b : Station) : Prop :=
  stationNameKey a ≤ stationNameKey b

instance : DecidableRel stationNameLE := fun a b =>
  inferInstanceAs (Decidable (stationNameKey a ≤ stationNameKey b))

instance : IsTotal Station stationNameLE :=
  ⟨fun a b => le_total (stationNameKey a) (stationNameKey b)⟩

instance : IsTrans Station stationNameLE :=
  ⟨fun _ _ _ hab hbc => le_trans hab hbc⟩

/-- The favorites memo: every station goes to favorites or others according
to isFavorite, then both lists are sorted by name. isFavorite is modelled
from the spec as membership of the persisted favorite-ID set (the
useFavorites hook is not among the sources); the forEach push preserves
fetch order, i.e. is a filter. -/
def partitionByFavorite (favoriteIds : List String)
    (allStations : List Station) : List Station × List Station :=
  let favorites := allStations.filter fun s => favoriteIds.contains s.id
  let others := allStations.filter fun s => !(favoriteIds.contains s.id)
  (List.insertionSort stationNameLE favorites,
   List.insertionSort stationNameLE others)

/-! Stability of the name sort: for each fixed name key, the sublist of
stations carrying that key is untouched by the sort. -/

theorem filter_key_orderedInsert_pos (x : Station) (k : List Char)
    (hx : stationNameKey x = k) :
    ∀ L : List Station,
      (List.orderedInsert stationNameLE x L).filter
          (fun s => decide (stationNameKey s = k)) =
        x :: L.filter (fun s => decide (stationNameKey s = k)) := by
  intro L
  induction L with
  | nil => simp [hx]
  | cons b L ih =>
    by_cases hrb : stationNameLE x b
    · simp [List.orderedInsert, if_pos hrb, List.filter_cons, hx]
    · have hbk : ¬ stationNameKey b = k := by
        have hlt : stationNameKey b < stationNameKey x := not_le.mp hrb
        rw [hx] at hlt
        exact ne_of_lt hlt
      simp only [List.orderedInsert, if_neg hrb, List.filter_cons]
      simp [hbk, ih]

theorem filter_key_orderedInsert_neg (x : Station) (k : List Char)
    (hx : ¬ stationNameKey x = k) :
    ∀ L : List Station,
      (List.orderedInsert stationNameLE x L).filter
          (fun s => decide (stationNameKey s = k)) =
        L.filter (fun s => decide (stationNameKey s = k)) := by
  intro L
  induction L with
  | nil => simp [hx]
  | cons b L ih =>
    by_cases hrb : stationNameLE x b
    · simp [List.orderedInsert, if_pos hrb, List.filter_cons, hx]
    · simp only [List.orderedInsert, if_neg hrb, List.filter_cons]
      rw [ih]

theorem filter_key_insertionSort (k : List Char) :
    ∀ l : List Station,
      (List.insertionSort stationNameLE l).filter
          (fun s => decide (stationNameKey s = k)) =
        l.filter (fun s => decide (stationNameKey s = k)) := by
  intro l
  induction l with
  | nil => rfl
  | cons x l ih =>
    by_cases hx : stationNameKey x = k
    · simp only [List.insertionSort]
      rw [filter_key_orderedInsert_pos x k hx, ih]
      simp [List.filter_cons, hx]
    · simp only [List.insertionSort]
      rw [filter_key_orderedInsert_neg x k hx, ih]
      simp [List.filter_cons, hx]

/-! ### Concrete fixtures used by witnesses and counterexamples -/

def stA : Station := { id := "A1", name := "Astoria Blvd" }

def stSubway : Station := { id := "S1", name := "Times Sq", system := some "SUBWAY" }

def stLirr : Station := { id := "L1", name := "Jamaica", system := some "LIRR" }

def dep45 : ProcessedDeparture := { departureTime := some (45 * 60000) }

def depUnknownTime : ProcessedDeparture := { departureTime := none }

def depDelayZero : Departure := { delayMinutes := some 0 }

def depDelayFive : Departure := { delayMinutes := some 5 }

/-! ### Claims -/

/-- C8: for every status string, the display category comes from
case-insensitive substring matching with the first match winning in the
fixed order delay, cancel, on time; with no match the raw status text is
carried unchanged. -/
theorem c8_status_category (s : String) :
    (getStatusCategory s = .Delayed ↔
      containsSub (lowerData s) "delay".data = true) ∧
    (getStatusCategory s = .Cancelled ↔
      (containsSub (lowerData s) "delay".data = false ∧
       containsSub (lowerData s) "cancel".data = true)) ∧
    (getStatusCategory s = .OnTime ↔
      (containsSub (lowerData s) "delay".data = false ∧
       containsSub (lowerData s) "cancel".data = false ∧
       containsSub (lowerData s) "on time".data = true)) ∧
    (getStatusCategory s = .Raw s ↔
      (containsSub (lowerData s) "delay".data = false ∧
       containsSub (lowerData s) "cancel".data = false ∧
       containsSub (lowerData s) "on time".data = false)) := by
  cases hd : containsSub (lowerData s) "delay".data <;>
    cases hc : containsSub (lowerData s) "cancel".data <;>
      cases ho : containsSub (lowerData s) "on time".data <;>
        simp [getStatusCategory, hd, hc, ho]

theorem c8_status_category_witness :
    getStatusCategory "Delayed 5 min" = .Delayed ∧
    getStatusCategory "On Time" = .OnTime ∧
    getStatusCategory "Train Cancelled" = .Cancelled ∧
    getStatusCategory "Scheduled" = .Raw "Scheduled" :=
  ⟨(c8_status_category "Delayed 5 min").1.mpr (by decide),
   (c8_status_category "On Time").2.2.1.mpr (by decide),
   (c8_status_category "Train Cancelled").2.1.mpr (by decide),
   (c8_status_category "Scheduled").2.2.2.mpr (by decide)⟩

theorem string_data_append (a b : String) : (a ++ b).data = a.data ++ b.data := by
  cases a
  cases b
  rfl

/-- C9: when the source argument is provided but limitMinutes is absent or
not positive, the departures endpoint is the bare path directly followed by
an ampersand-joined source parameter; no question mark is introduced, so
the parameter is not a well-formed query parameter. -/
theorem c9_source_without_query_start (stationId src : String)
    (lim : Option Int) (h : ∀ l, lim = some l → l ≤ 0) :
    departuresEndpoint stationId lim (some src) =
      "/departures/" ++ stationId ++ "&source=" ++ src ∧
    ('?' ∈ (departuresEndpoint stationId lim (some src)).data ↔
      ('?' ∈ stationId.data ∨ '?' ∈ src.data)) := by
  have he : departuresEndpoint stationId lim (some src) =
      "/departures/" ++ stationId ++ "&source=" ++ src := by
    cases lim with
    | none => rfl
    | some l =>
      have hl : ¬ (0 < l) := not_lt.mpr (h l rfl)
      simp [departuresEndpoint, if_neg hl]
  have h1 : ¬ ('?' ∈ "/departures/".data) := by decide
  have h2 : ¬ ('?' ∈ "&source=".data) := by decide
  refine ⟨he, ?_⟩
  rw [he]
  simp only [string_data_append, List.mem_append]
  constructor
  · rintro (((hq | hq) | hq) | hq)
    · exact absurd hq h1
    · exact Or.inl hq
    · exact absurd hq h2
    · exact Or.inr hq
  · rintro (hq | hq)
    · exact Or.inl (Or.inl (Or.inr hq))
    · exact Or.inr hq

theorem c9_source_without_query_start_witness :
    departuresEndpoint "237" (some 0) (some "scheduled") =
      "/departures/237&source=scheduled" ∧
    ¬ '?' ∈ (departuresEndpoint "237" (some 0) (some "scheduled")).data := by
  have h := c9_source_without_query_start "237" "scheduled" (some 0)
    (fun l hl => by injection hl with hl2; omega)
  constructor
  · rw [h.1]
    rfl
  · rw [h.1]
    decide

/-- C10: a zero delayMinutes from the server is coerced to null by the
JavaScript truthiness test while any nonzero value is preserved, and an
empty stationId makes fetchDepartures return the empty list with no
network request. -/
theorem c10_delay_zero_lost (parseDate : String → Int) (dep : Departure)
    (d : Int) :
    (dep.delayMinutes = some 0 →
      (processDeparture parseDate dep).delayMinutes = none) ∧
    (dep.delayMinutes = some d → d ≠ 0 →
      (processDeparture parseDate dep).delayMinutes = some d) ∧
    (∀ (lim : Option Int) (src : Option String) (server : List Departure),
      fetchDepartures parseDate "" lim src server = ⟨[], 0⟩) := by
  refine ⟨?_, ?_, ?_⟩
  · intro h
    simp [processDeparture, h]
  · intro h hd
    simp [processDeparture, h, hd]
  · intro lim src server
    rfl

theorem c10_delay_zero_lost_witness :
    (processDeparture (fun _ => 0) depDelayZero).delayMinutes = none ∧
    (processDeparture (fun _ => 0) depDelayFive).delayMinutes = some 5 ∧
    fetchDepartures (fun _ => 0) "" none none [] = ⟨[], 0⟩ :=
  ⟨(c10_delay_zero_lost (fun _ => 0) depDelayZero 5).1 rfl,
   (c10_delay_zero_lost (fun _ => 0) depDelayFive 5).2.1 rfl (by decide),
   (c10_delay_zero_lost (fun _ => 0) depDelayZero 5).2.2 none none []⟩

/-- Oracle returning a different station list for each system parameter. -/
def perSystemOracle : FetchOracle := fun _ sys _ =>
  match sys with
  | some .SUBWAY => .ok [stSubway]
  | some .LIRR => .ok [stLirr]
  | some .MNR => .ok []
  | none => .ok [stSubway, stLirr]

def failingOracle : FetchOracle := fun _ _ _ => .error "network down"

/-- C3: with a snapshot cached at a (truthy) time t0, every read in the
TTL window is answered from the cache with zero network calls and leaves
the stored entry untouched, and a read at or past expiry consults the
network exactly once and, when the fetch succeeds, overwrites both the
snapshot and the timestamp with fresh values. -/
theorem c3_cache_ttl (fetch : FetchOracle) (searchText : String)
    (sysFilter : SystemFilterValue) (A : List Station) (t0 t : Nat)
    (h0 : 0 < t0) (hle : t0 ≤ t) :
    (t < t0 + STATION_LIST_CACHE_TTL →
      loadStations fetch searchText sysFilter ⟨some A, some t0⟩ t =
        ⟨A, ⟨some A, some t0⟩, 0, none⟩) ∧
    (t0 + STATION_LIST_CACHE_TTL ≤ t →
      ((loadStations fetch searchText sysFilter ⟨some A, some t0⟩ t).networkCalls = 1 ∧
       ∀ B, fetch searchText (filterValueToApiParam sysFilter) false = .ok B →
         loadStations fetch searchText sysFilter ⟨some A, some t0⟩ t =
           ⟨B, ⟨some B, some t⟩, 1, none⟩)) := by
  constructor
  · intro hwin
    have hcond : t0 ≠ 0 ∧ t - t0 < STATION_LIST_CACHE_TTL :=
      ⟨Nat.pos_iff_ne_zero.mp h0, by omega⟩
    simp [loadStations, if_pos hcond]
  · intro hexp
    have hcond : ¬ (t0 ≠ 0 ∧ t - t0 < STATION_LIST_CACHE_TTL) := by
      intro hcond
      exact absurd hcond.2 (by omega)
    constructor
    · simp only [loadStations, if_neg hcond]
      cases hf : fetch searchText (filterValueToApiParam sysFilter) false <;> rfl
    · intro B hB
      simp [loadStations, if_neg hcond, hB]

theorem c3_cache_ttl_witness :
    loadStations (fun _ _ _ => .ok [stA]) "" .All ⟨some [stSubway], some 1⟩ 2 =
      ⟨[stSubway], ⟨some [stSubway], some 1⟩, 0, none⟩ ∧
    loadStations (fun _ _ _ => .ok [stA]) "" .All ⟨some [stSubway], some 1⟩
        (1 + STATION_LIST_CACHE_TTL) =
      ⟨[stA], ⟨some [stA], some (1 + STATION_LIST_CACHE_TTL)⟩, 1, none⟩ :=
  ⟨(c3_cache_ttl (fun _ _ _ => .ok [stA]) "" .All [stSubway] 1 2
      (by decide) (by decide)).1 (by decide),
   ((c3_cache_ttl (fun _ _ _ => .ok [stA]) "" .All [stSubway] 1
      (1 + STATION_LIST_CACHE_TTL) (by decide) (by decide)).2
      (le_refl _)).2 [stA] rfl⟩

/-- C2 counterexample: the cache entry is stored under one fixed
LocalStorage key with no filter in it, so a snapshot written during a load
performed under the SUBWAY filter is served, from cache with zero network
calls, to a later read performed under the LIRR filter, even though the
network would answer that request with different stations. -/
theorem c2_cache_not_keyed_counterexample :
    (loadStations perSystemOracle "" .SUBWAY ⟨none, none⟩ 1000).state =
      ⟨some [stSubway], some 1000⟩ ∧
    loadStations perSystemOracle "" .LIRR
        ((loadStations perSystemOracle "" .SUBWAY ⟨none, none⟩ 1000).state) 2000 =
      ⟨[stSubway], ⟨some [stSubway], some 1000⟩, 0, none⟩ ∧
    perSystemOracle "" (filterValueToApiParam .LIRR) false = .ok [stLirr] :=
  ⟨rfl, rfl, rfl⟩

/-- C2 amended: the station-list cache is one global entry shared by every
system filter; while the single stored snapshot is fresh, a read under any
filter and any search text is answered with that snapshot, unchanged, with
zero network calls. -/
theorem c2_single_global_cache_entry (fetch : FetchOracle)
    (searchText : String) (sysFilter : SystemFilterValue) (A : List Station)
    (t0 now : Nat) (h0 : t0 ≠ 0)
    (hfresh : now - t0 < STATION_LIST_CACHE_TTL) :
    loadStations fetch searchText sysFilter ⟨some A, some t0⟩ now =
      ⟨A, ⟨some A, some t0⟩, 0, none⟩ := by
  simp [loadStations, if_pos (And.intro h0 hfresh)]

theorem c2_single_global_cache_entry_witness :
    loadStations perSystemOracle "anything" .MNR ⟨some [stSubway], some 5⟩ 6 =
      ⟨[stSubway], ⟨some [stSubway], some 5⟩, 0, none⟩ :=
  c2_single_global_cache_entry perSystemOracle "anything" .MNR [stSubway] 5 6
    (by decide) (by decide)

/-- C1 (code bug): handleRefresh removes both LocalStorage keys before
fetching, so when the forced fetch fails the previously persisted snapshot
is gone; a subsequent non-forced read finds no timestamp, issues a network
call, and serves the new fetch result instead of the seeded snapshot. -/
theorem c1_refresh_failure_clears_cache :
    (handleRefresh failingOracle "" .All ⟨some [stA], some 1000⟩ 2000).state =
      ⟨none, none⟩ ∧
    (handleRefresh failingOracle "" .All ⟨some [stA], some 1000⟩ 2000).errorShown =
      some "network down" ∧
    loadStations perSystemOracle "" .All
        ((handleRefresh failingOracle "" .All ⟨some [stA], some 1000⟩ 2000).state)
        2001 =
      ⟨[stSubway, stLirr], ⟨some [stSubway, stLirr], some 2001⟩, 1, none⟩ :=
  ⟨rfl, rfl, rfl⟩

/-- C4: whenever the parsed JSON body carries the error envelope shape (an
error field holding an object with a string message), the wrapper
classifies the response as a failure, never as success, for every status;
and on an ok (2xx) status the raised error carries exactly the envelope
message. -/
theorem c4_error_envelope_is_failure (ok : Bool) (status : Nat)
    (fields errorFields : List (String × Json)) (msg : String)
    (h1 : lookupField fields "error" = some (.obj errorFields))
    (h2 : lookupField errorFields "message" = some (.str msg)) :
    (∀ v, fetchFromWrapper true ok status (.obj fields) ≠ .ok v) ∧
    (ok = true →
      fetchFromWrapper true ok status (.obj fields) =
        .error ⟨msg, some status⟩) := by
  have herr : isErrorResponse (.obj fields) = true := by
    simp [isErrorResponse, h1, h2]
  have hmsg : getErrorMessage (.obj fields) = msg := by
    simp [getErrorMessage, h1, h2]
  cases ok with
  | false =>
    refine ⟨?_, fun h => by cases h⟩
    intro v
    simp [fetchFromWrapper, herr]
  | true =>
    refine ⟨?_, fun _ => ?_⟩
    · intro v
      simp [fetchFromWrapper, herr]
    · simp [fetchFromWrapper, herr, hmsg]

def errorBody : Json := .obj [("error", .obj [("message", .str "boom")])]

theorem c4_error_envelope_is_failure_witness :
    fetchFromWrapper true true 200 errorBody = .error ⟨"boom", some 200⟩ :=
  (c4_error_envelope_is_failure true 200
    [("error", .obj [("message", .str "boom")])]
    [("message", .str "boom")] "boom" rfl rfl).2 rfl

/-- C5: grouping departures by destinationBorough (falsy borough becomes
Outbound), the rendered section order is: for LIRR and MNR the Outbound
section first and every other section in first-encounter order after it
(stated as a filter decomposition, which preserves relative order); for
SUBWAY a permutation of the encounter-order sections that is sorted
alphabetically by group label. -/
theorem c5_section_ordering (deps : List ProcessedDeparture) :
    (departureSections .LIRR deps =
       (groupByBorough deps).filter (fun g => g.1 == "Outbound") ++
       (groupByBorough deps).filter (fun g => !(g.1 == "Outbound"))) ∧
    (departureSections .MNR deps =
       (groupByBorough deps).filter (fun g => g.1 == "Outbound") ++
       (groupByBorough deps).filter (fun g => !(g.1 == "Outbound"))) ∧
    List.Sorted (fun g h => g.1.data ≤ h.1.data)
      (departureSections .SUBWAY deps) ∧
    (departureSections .SUBWAY deps).Perm (groupByBorough deps) := by
  have hL : ∀ a b : String × List ProcessedDeparture,
      sectionLE .LIRR a b ↔
        ((a.1 == "Outbound") = true ∨ (b.1 == "Outbound") = false) := by
    intro a b
    simp [sectionLE]
  have hM : ∀ a b : String × List ProcessedDeparture,
      sectionLE .MNR a b ↔
        ((a.1 == "Outbound") = true ∨ (b.1 == "Outbound") = false) := by
    intro a b
    simp [sectionLE]
  refine ⟨?_, ?_, ?_, ?_⟩
  · exact insertionSort_two_class (fun g => g.1 == "Outbound")
      (sectionLE .LIRR) hL (groupByBorough deps)
  · exact insertionSort_two_class (fun g => g.1 == "Outbound")
      (sectionLE .MNR) hM (groupByBorough deps)
  · exact (List.sorted_insertionSort (sectionLE .SUBWAY)
      (groupByBorough deps)).imp (fun h => h)
  · exact List.perm_insertionSort (sectionLE .SUBWAY) (groupByBorough deps)

def depQueensLIRR : ProcessedDeparture :=
  { destinationBorough := some "Queens", system := .LIRR }

def depNoBoroughLIRR : ProcessedDeparture :=
  { destinationBorough := none, system := .LIRR }

def depQueensSub : ProcessedDeparture :=
  { destinationBorough := some "Queens" }

def depBronxSub : ProcessedDeparture :=
  { destinationBorough := some "Bronx" }

theorem c5_section_ordering_witness :
    (departureSections .LIRR [depQueensLIRR, depNoBoroughLIRR]).map Prod.fst =
      ["Outbound", "Queens"] ∧
    List.Sorted (fun g h => g.1.data ≤ h.1.data)
      (departureSections .SUBWAY [depQueensSub, depBronxSub]) ∧
    (departureSections .SUBWAY [depQueensSub, depBronxSub]).map Prod.fst =
      ["Bronx", "Queens"] := by
  refine ⟨?_, (c5_section_ordering [depQueensSub, depBronxSub]).2.2.1, ?_⟩
  · rw [(c5_section_ordering [depQueensLIRR, depNoBoroughLIRR]).1]
    decide
  · decide

/-- C6: a departure is displayed iff the fetch returned it, which happens
exactly when the selected limit is 0 (unbounded, sent as no parameter), or
its departure time is unknown, or it departs no later than now plus the
limit; in particular a departure 45 minutes out is shown under limits 60
and 0 but not 30, and an unknown-time departure is always shown. -/
theorem c6_time_window (selectedLimit : Nat) (now : Int)
    (allDeps : List ProcessedDeparture) (dep : ProcessedDeparture) :
    (dep ∈ displayedDepartures selectedLimit now allDeps ↔
      (dep ∈ allDeps ∧
        (selectedLimit = 0 ∨ dep.departureTime = none ∨
          ∃ t, dep.departureTime = some t ∧
            t ≤ now + selectedLimit * 60000))) ∧
    dep45 ∈ displayedDepartures 60 0 [dep45] ∧
    dep45 ∉ displayedDepartures 30 0 [dep45] ∧
    dep45 ∈ displayedDepartures 0 0 [dep45] ∧
    depUnknownTime ∈ displayedDepartures 30 0 [depUnknownTime] := by
  refine ⟨?_, by decide, by decide, by decide, by decide⟩
  by_cases h0 : selectedLimit = 0
  · subst h0
    simp [displayedDepartures, limitParam, serverWindowFilter]
  · have hpos : selectedLimit > 0 := Nat.pos_of_ne_zero h0
    simp only [displayedDepartures, limitParam, if_pos hpos,
      serverWindowFilter, List.mem_filter]
    cases ht : dep.departureTime with
    | none => simp [ht, h0]
    | some t => simp [ht, h0]

theorem c6_time_window_witness :
    dep45 ∈ displayedDepartures 60 0 [dep45] :=
  (c6_time_window 60 0 [dep45] dep45).2.1

/-- C7: the favorite partition puts a station into favorites exactly when
its id is in the favorite set and into others exactly otherwise (so the two
lists cover the input as sets and are disjoint), both output lists are
sorted by the case-insensitive name order, and for each fixed name key the
stations carrying it keep their original fetch order (stability). -/
theorem c7_partition_by_favorite (S : List Station) (F : List String) :
    (∀ s, s ∈ (partitionByFavorite F S).1 ↔ (s ∈ S ∧ s.id ∈ F)) ∧
    (∀ s, s ∈ (partitionByFavorite F S).2 ↔ (s ∈ S ∧ s.id ∉ F)) ∧
    (∀ s, ¬ (s ∈ (partitionByFavorite F S).1 ∧
             s ∈ (partitionByFavorite F S).2)) ∧
    List.Sorted stationNameLE (partitionByFavorite F S).1 ∧
    List.Sorted stationNameLE (partitionByFavorite F S).2 ∧
    (∀ k, (partitionByFavorite F S).1.filter
        (fun s => decide (stationNameKey s = k)) =
      (S.filter fun s => F.contains s.id).filter
        (fun s => decide (stationNameKey s = k))) ∧
    (∀ k, (partitionByFavorite F S).2.filter
        (fun s => decide (stationNameKey s = k)) =
      (S.filter fun s => !(F.contains s.id)).filter
        (fun s => decide (stationNameKey s = k))) := by
  have hmem1 : ∀ s, s ∈ (partitionByFavorite F S).1 ↔ (s ∈ S ∧ s.id ∈ F) := by
    intro s
    simp [partitionByFavorite, List.mem_insertionSort, List.mem_filter,
      List.elem_iff]
  have hmem2 : ∀ s, s ∈ (partitionByFavorite F S).2 ↔ (s ∈ S ∧ s.id ∉ F) := by
    intro s
    simp [partitionByFavorite, List.mem_insertionSort, List.mem_filter,
      List.elem_iff]
  refine ⟨hmem1, hmem2, ?_, ?_, ?_, ?_, ?_⟩
  · intro s hs
    exact ((hmem2 s).mp hs.2).2 ((hmem1 s).mp hs.1).2
  · exact List.sorted_insertionSort stationNameLE _
  · exact List.sorted_insertionSort stationNameLE _
  · intro k
    exact filter_key_insertionSort k _
  · intro k
    exact filter_key_insertionSort k _

theorem c7_partition_by_favorite_witness :
    stSubway ∈ (partitionByFavorite ["S1"] [stLirr, stSubway]).1 ∧
    stLirr ∈ (partitionByFavorite ["S1"] [stLirr, stSubway]).2 :=
  ⟨((c7_partition_by_favorite [stLirr, stSubway] ["S1"]).1 stSubway).mpr
      (by decide),
   ((c7_partition_by_favorite [stLirr, stSubway] ["S1"]).2.1 stLirr).mpr
      (by decide)⟩

end TrainTracker
